import Mathlib

/-!
Verification of the session-orchestration and admission-control engine of the
`nuc_playwright_test` stress driver against its natural-language specification.

The Lean definitions below are shallow embeddings of the Python source:

* `ResourceCalculator` — `src/utils/resource_calculator.py`
* `ConfigOptimizer` — `src/utils/config_optimizer.py`
* `Main` — `src/main.py` (iframe retry helper, login retry loop, the
  continuous question pipeline, course-open handling, the per-session
  semaphore discipline of `run_session_with_context`, and the result
  aggregation of `stress_test`)

Machine integers are modelled as `Nat` (all the quantities involved are
non-negative Python ints; Python `//` on non-negative ints is `Nat` division).
Fallible code returns `Except`; the asyncio interleavings relevant to the
claims are modelled as explicit small-step transition relations whose atomic
steps correspond to the critical sections of the source.
-/

namespace NucPlaywright

/-! ## ResourceCalculator (src/utils/resource_calculator.py) -/

namespace ResourceCalculator

/-- Class constant `MIN_SESSIONS_PER_USER = 1` (resource_calculator.py line 25). -/
def MIN_SESSIONS_PER_USER : Nat := 1

/-- Class constant `MAX_SESSIONS_PER_USER = 50` (resource_calculator.py line 26). -/
def MAX_SESSIONS_PER_USER : Nat := 50

/-- Class constant `MIN_CONCURRENT_CONTEXTS = 1` (resource_calculator.py line 27). -/
def MIN_CONCURRENT_CONTEXTS : Nat := 1

/-- Class constant `MAX_CONCURRENT_CONTEXTS = None` (resource_calculator.py line 28):
`none` means "no upper limit".  The class attribute is the configuration point for
the hard cap, so definitions below take the cap as an `Option Nat` parameter and
this constant is its value as shipped. -/
def MAX_CONCURRENT_CONTEXTS : Option Nat := none

/-- The upper-cap step of `calculate_optimal_config` (lines 127-129):
`if self.MAX_CONCURRENT_CONTEXTS is not None: max_contexts = min(max_contexts, self.MAX_CONCURRENT_CONTEXTS)`. -/
def applyUpperCap (cap : Option Nat) (x : Nat) : Nat :=
  match cap with
  | none => x
  | some c => min x c

/-- Shallow embedding of `ResourceCalculator.calculate_optimal_config`
(resource_calculator.py lines 108-154).  `maxContextsMemory` and
`maxContextsCpu` are the (non-negative integer) results of
`calculate_max_contexts_by_memory` and `calculate_max_contexts_by_cpu`, which
read live resources; they are taken as inputs here.  Returns the pair
`(sessions_per_user, max_concurrent_contexts)`. -/
def calculate_optimal_config (cap : Option Nat)
    (maxContextsMemory maxContextsCpu numUsers : Nat) : Nat × Nat :=
  -- line 123: max_contexts = min(max_contexts_memory, max_contexts_cpu)
  let maxContexts0 := min maxContextsMemory maxContextsCpu
  -- line 126: max_contexts = max(self.MIN_CONCURRENT_CONTEXTS, max_contexts)
  let maxContexts1 := max MIN_CONCURRENT_CONTEXTS maxContexts0
  -- lines 127-129: upper cap applied only when MAX_CONCURRENT_CONTEXTS is set
  let maxContexts := applyUpperCap cap maxContexts1
  -- lines 132-137: sessions_per_user from max_contexts // num_users, clamped
  let sessionsPerUser0 :=
    if 0 < numUsers then
      max MIN_SESSIONS_PER_USER (min (maxContexts / numUsers) MAX_SESSIONS_PER_USER)
    else
      MIN_SESSIONS_PER_USER
  -- lines 139-146: if max_contexts < sessions_per_user * num_users, reduce again
  let requiredContexts := sessionsPerUser0 * numUsers
  let sessionsPerUser :=
    if maxContexts < requiredContexts then
      max MIN_SESSIONS_PER_USER (if 0 < numUsers then maxContexts / numUsers else 1)
    else
      sessionsPerUser0
  (sessionsPerUser, maxContexts)

/-- Arithmetic core of the "reduce again" branch (resource_calculator.py lines
139-146): reducing `sessions_per_user` to `max(1, mc // n)` when
`mc < sessions_per_user * n` never moves the result away from the clamp
`max(1, min(mc // n, 50))`. -/
theorem reduce_branch_eq_clamp (mc n : Nat) (hn0 : 0 < n) :
    (if mc < max 1 (min (mc / n) 50) * n then max 1 (mc / n)
     else max 1 (min (mc / n) 50))
      = max 1 (min (mc / n) 50) := by
  by_cases hred : mc < max 1 (min (mc / n) 50) * n
  · rw [if_pos hred]
    -- in the reduction branch the quotient is at most 50:
    -- otherwise 51 * n ≤ mc while mc < 50 * n, impossible.
    have hq : mc / n ≤ 50 := by
      by_contra hgt
      push_neg at hgt
      have h51 : 51 ≤ mc / n := hgt
      have hle : 51 * n ≤ mc := (Nat.le_div_iff_mul_le hn0).mp h51
      have hmin : min (mc / n) 50 = 50 := by omega
      rw [hmin] at hred
      have hmax : max 1 50 = 50 := by norm_num
      rw [hmax] at hred
      omega
    have : min (mc / n) 50 = mc / n := by omega
    rw [this]
  · rw [if_neg hred]

/-- Closed form of `calculate_optimal_config` for `numUsers ≥ 1`: the returned
ceiling is the minimum of the two resource ceilings clamped below by
`MIN_CONCURRENT_CONTEXTS` and above by the cap (when set), and the returned
per-user count is the floor quotient of the ceiling by `numUsers` clamped to
`[MIN_SESSIONS_PER_USER, MAX_SESSIONS_PER_USER]` — the second "reduce again"
branch never moves the result away from this clamp. -/
theorem calculate_optimal_config_closed_form (cap : Option Nat)
    (memC cpuC n : Nat) (hn : 1 ≤ n) :
    (calculate_optimal_config cap memC cpuC n).2
        = applyUpperCap cap (max MIN_CONCURRENT_CONTEXTS (min memC cpuC)) ∧
    (calculate_optimal_config cap memC cpuC n).1
        = max MIN_SESSIONS_PER_USER
            (min ((calculate_optimal_config cap memC cpuC n).2 / n) MAX_SESSIONS_PER_USER) := by
  have hn0 : 0 < n := hn
  constructor
  · rfl
  · show (calculate_optimal_config cap memC cpuC n).1
        = max 1 (min ((calculate_optimal_config cap memC cpuC n).2 / n) 50)
    have hkey := reduce_branch_eq_clamp (applyUpperCap cap (max 1 (min memC cpuC))) n hn0
    simp only [calculate_optimal_config, MIN_SESSIONS_PER_USER, MAX_SESSIONS_PER_USER,
      MIN_CONCURRENT_CONTEXTS, if_pos hn0]
    exact hkey

end ResourceCalculator

namespace ResourceCalculator

/-- C5: The resource estimator returns the more restrictive (minimum) of the
memory- and CPU-based ceilings, clamped to `[MIN_CONCURRENT_CONTEXTS,
configured hard cap]` (`applyUpperCap` is the identity when the hard cap is
`none`, the value shipped as `MAX_CONCURRENT_CONTEXTS`), and returns as
per-user replica count the floor of that ceiling divided by `numUsers`,
clamped to `[MIN_SESSIONS_PER_USER, MAX_SESSIONS_PER_USER]`. -/
theorem c5_estimator_clamped_ceilings (cap : Option Nat)
    (memC cpuC n : Nat) (hn : 1 ≤ n) :
    (calculate_optimal_config cap memC cpuC n).2
        = applyUpperCap cap (max MIN_CONCURRENT_CONTEXTS (min memC cpuC)) ∧
    (calculate_optimal_config cap memC cpuC n).1
        = max MIN_SESSIONS_PER_USER
            (min ((calculate_optimal_config cap memC cpuC n).2 / n) MAX_SESSIONS_PER_USER) :=
  calculate_optimal_config_closed_form cap memC cpuC n hn

/-- Witness for C5 at a concrete input: cap unset (the shipped value), memory
ceiling 7, CPU ceiling 5, two users. -/
theorem c5_estimator_clamped_ceilings_witness :
    1 ≤ 2 ∧
    ((calculate_optimal_config MAX_CONCURRENT_CONTEXTS 7 5 2).2
        = applyUpperCap MAX_CONCURRENT_CONTEXTS (max MIN_CONCURRENT_CONTEXTS (min 7 5)) ∧
     (calculate_optimal_config MAX_CONCURRENT_CONTEXTS 7 5 2).1
        = max MIN_SESSIONS_PER_USER
            (min ((calculate_optimal_config MAX_CONCURRENT_CONTEXTS 7 5 2).2 / 2)
              MAX_SESSIONS_PER_USER)) :=
  ⟨by decide, c5_estimator_clamped_ceilings MAX_CONCURRENT_CONTEXTS 7 5 2 (by decide)⟩

/-- C3 counterexample: with both resource ceilings equal to 1 and two users,
the calculator returns `sessions_per_user = 1` (the `MIN_SESSIONS_PER_USER`
floor) and `max_contexts = 1`, so `sessions_per_user × numUsers = 2 > 1`:
the claimed inequality fails on the code. -/
theorem c3_product_bound_counterexample :
    ¬ ((calculate_optimal_config MAX_CONCURRENT_CONTEXTS 1 1 2).1 * 2
        ≤ (calculate_optimal_config MAX_CONCURRENT_CONTEXTS 1 1 2).2) := by
  decide

/-- C3 amended: for every `numUsers ≥ 1`, the pair returned by the resource
calculator satisfies `sessions_per_user × numUsers ≤ max(max_contexts,
numUsers)`; the bound `sessions_per_user × numUsers ≤ max_contexts` itself
holds exactly when the computed ceiling is at least `numUsers`, because the
`MIN_SESSIONS_PER_USER = 1` floor forces one session per user even when the
ceiling is smaller than the number of users. -/
theorem c3_product_bound_amended (cap : Option Nat) (memC cpuC n : Nat) (hn : 1 ≤ n) :
    (calculate_optimal_config cap memC cpuC n).1 * n
      ≤ max (calculate_optimal_config cap memC cpuC n).2 n := by
  have hn0 : 0 < n := hn
  obtain ⟨-, h1⟩ := calculate_optimal_config_closed_form cap memC cpuC n hn
  set mc := (calculate_optimal_config cap memC cpuC n).2 with hmc
  rw [h1]
  by_cases hq : mc / n = 0
  · rw [hq]
    simp only [MIN_SESSIONS_PER_USER, MAX_SESSIONS_PER_USER]
    have : max 1 (min 0 50) = 1 := by norm_num
    rw [this, one_mul]
    omega
  · have hq1 : 1 ≤ mc / n := Nat.one_le_iff_ne_zero.mpr hq
    simp only [MIN_SESSIONS_PER_USER, MAX_SESSIONS_PER_USER]
    have hmax : max 1 (min (mc / n) 50) = min (mc / n) 50 := by omega
    rw [hmax]
    have hle : min (mc / n) 50 * n ≤ mc / n * n := by
      apply Nat.mul_le_mul_right
      omega
    have hdm : mc / n * n ≤ mc := Nat.div_mul_le_self mc n
    omega

/-- Witness for C3's amended theorem at the counterexample input itself. -/
theorem c3_product_bound_amended_witness :
    1 ≤ 2 ∧
    (calculate_optimal_config MAX_CONCURRENT_CONTEXTS 1 1 2).1 * 2
      ≤ max (calculate_optimal_config MAX_CONCURRENT_CONTEXTS 1 1 2).2 2 :=
  ⟨by decide, c3_product_bound_amended MAX_CONCURRENT_CONTEXTS 1 1 2 (by decide)⟩

end ResourceCalculator

/-! ## Retry loops (src/main.py) -/

namespace Main

/-- Shallow embedding of the loop body of `get_iframe_content_frame`
(main.py lines 142-175).  `attemptResult i` is the outcome of the i-th try
block (0-based, matching `for attempt in range(max_attempts)`): `some f` when
the iframe content frame was obtained, `none` when the attempt raised or the
content frame was `None`.  Returns the surfaced result together with the
number of attempts actually made.  The page refresh between attempts has no
effect on the result/attempt count and is not modelled. -/
def getIframeGo {α : Type} (attemptResult : Nat → Option α) (maxAttempts i : Nat) :
    Except String α × Nat :=
  if _h : i < maxAttempts then
    match attemptResult i with
    | some f => (Except.ok f, i + 1)
    | none =>
      if i < maxAttempts - 1 then
        getIframeGo attemptResult maxAttempts (i + 1)
      else
        -- line 173: raise after the final failed attempt
        (Except.error "Could not get content frame from iframe", i + 1)
  else
    -- line 175: fallback raise when the loop body never runs
    (Except.error "Could not get content frame from iframe", i)
termination_by maxAttempts - i

/-- Entry point of the retry helper: starts at attempt 0 (main.py line 146). -/
def get_iframe_content_frame {α : Type} (attemptResult : Nat → Option α)
    (maxAttempts : Nat) : Except String α × Nat :=
  getIframeGo attemptResult maxAttempts 0

/-- Outcome of one login attempt in the retry loop of `run_user_session`
(main.py lines 1808-1985).  `success` is the dashboard becoming visible
(line 1858); the three failure shapes (browser disconnected before
navigation, dashboard not visible, exception during navigation/login) all
continue to the next attempt when one remains and raise on the last one. -/
inductive LoginAttemptOutcome : Type
  | success
  | browserDisconnected
  | dashboardNotVisible
  | loginError
deriving DecidableEq

/-- Source constant `login_max_retries = 3` (main.py line 1795). -/
def login_max_retries : Nat := 3

/-- Shallow embedding of the login retry loop of `run_user_session` (main.py
lines 1808-1985).  `outcome i` is the result of the 1-based attempt `i`
(matching `for login_attempt in range(1, login_max_retries + 1)`).  Returns
the surfaced result and the number of attempts made. -/
def loginGo (outcome : Nat → LoginAttemptOutcome) (maxRetries i : Nat) :
    Except String Unit × Nat :=
  if h : i ≤ maxRetries then
    match outcome i with
    | LoginAttemptOutcome.success => (Except.ok (), i)
    | _ =>
      if i < maxRetries then
        loginGo outcome maxRetries (i + 1)
      else
        -- lines 1838, 1916, 1985: raise on the final failed attempt
        (Except.error "Login failed after 3 attempts", i)
  else
    (Except.error "Login failed after 3 attempts", i - 1)
termination_by maxRetries + 1 - i

/-- The login phase of `run_user_session`: attempts start at 1. -/
def run_user_session_login (outcome : Nat → LoginAttemptOutcome) :
    Except String Unit × Nat :=
  loginGo outcome login_max_retries 1

/-- When every attempt fails, `getIframeGo` starting from attempt `i`
makes exactly the remaining `maxAttempts - i` attempts and surfaces an error. -/
theorem getIframeGo_all_fail {α : Type} (attemptResult : Nat → Option α)
    (maxAttempts : Nat) (i : Nat) (hi : i < maxAttempts)
    (hfail : ∀ j, attemptResult j = none) :
    getIframeGo attemptResult maxAttempts i
      = (Except.error "Could not get content frame from iframe", maxAttempts) := by
  rw [getIframeGo]
  rw [dif_pos hi, hfail i]
  by_cases hlast : i < maxAttempts - 1
  · rw [if_pos hlast]
    exact getIframeGo_all_fail attemptResult maxAttempts (i + 1) (by omega) hfail
  · rw [if_neg hlast]
    have : i + 1 = maxAttempts := by omega
    rw [this]
termination_by maxAttempts - i

/-- An `ok` result of `getIframeGo` always comes from a successful attempt
within range: the helper never reports success out of thin air. -/
theorem getIframeGo_ok_has_witness {α : Type} (attemptResult : Nat → Option α)
    (maxAttempts i : Nat) (f : α)
    (hok : (getIframeGo attemptResult maxAttempts i).1 = Except.ok f) :
    ∃ j, j < maxAttempts ∧ attemptResult j = some f := by
  rw [getIframeGo] at hok
  by_cases hi : i < maxAttempts
  · rw [dif_pos hi] at hok
    cases hr : attemptResult i with
    | some g =>
      rw [hr] at hok
      simp only [Except.ok.injEq] at hok
      exact ⟨i, hi, by rw [hr, hok]⟩
    | none =>
      rw [hr] at hok
      by_cases hlast : i < maxAttempts - 1
      · rw [if_pos hlast] at hok
        exact getIframeGo_ok_has_witness attemptResult maxAttempts (i + 1) f hok
      · rw [if_neg hlast] at hok
        simp at hok
  · rw [dif_neg hi] at hok
    simp at hok
termination_by maxAttempts - i

/-- When every attempt fails, `loginGo` starting at attempt `i ≥ 1` makes all
remaining attempts up to `maxRetries` and surfaces an error. -/
theorem loginGo_all_fail (outcome : Nat → LoginAttemptOutcome)
    (maxRetries i : Nat) (hi1 : 1 ≤ i) (hi : i ≤ maxRetries)
    (hfail : ∀ j, outcome j ≠ LoginAttemptOutcome.success) :
    loginGo outcome maxRetries i
      = (Except.error "Login failed after 3 attempts", maxRetries) := by
  rw [loginGo, dif_pos hi]
  have hcase : outcome i ≠ LoginAttemptOutcome.success := hfail i
  cases houtcome : outcome i with
  | success => exact absurd houtcome hcase
  | browserDisconnected =>
    by_cases hlast : i < maxRetries
    · rw [if_pos hlast]
      exact loginGo_all_fail outcome maxRetries (i + 1) (by omega) (by omega) hfail
    · rw [if_neg hlast]
      have : i = maxRetries := by omega
      rw [this]
  | dashboardNotVisible =>
    by_cases hlast : i < maxRetries
    · rw [if_pos hlast]
      exact loginGo_all_fail outcome maxRetries (i + 1) (by omega) (by omega) hfail
    · rw [if_neg hlast]
      have : i = maxRetries := by omega
      rw [this]
  | loginError =>
    by_cases hlast : i < maxRetries
    · rw [if_pos hlast]
      exact loginGo_all_fail outcome maxRetries (i + 1) (by omega) (by omega) hfail
    · rw [if_neg hlast]
      have : i = maxRetries := by omega
      rw [this]
termination_by maxRetries + 1 - i

/-- C6: a retried operation that fails on every attempt is attempted exactly
its configured number of times and then surfaces an error to the caller — it
never reports success after exhausting all attempts.  Stated for the two
retry loops cited by the claim: `get_iframe_content_frame` (default
`max_attempts = 5`, or any positive count) and the login loop of
`run_user_session` (`login_max_retries = 3`). -/
theorem c6_retry_exhaustion {α : Type} (attemptResult : Nat → Option α)
    (outcome : Nat → LoginAttemptOutcome) (maxAttempts : Nat)
    (hpos : 1 ≤ maxAttempts)
    (hframe : ∀ j, attemptResult j = none)
    (hlogin : ∀ j, outcome j ≠ LoginAttemptOutcome.success) :
    get_iframe_content_frame attemptResult maxAttempts
        = (Except.error "Could not get content frame from iframe", maxAttempts) ∧
    run_user_session_login outcome
        = (Except.error "Login failed after 3 attempts", login_max_retries) ∧
    (∀ f, (get_iframe_content_frame attemptResult maxAttempts).1 = Except.ok f →
        ∃ j, j < maxAttempts ∧ attemptResult j = some f) := by
  refine ⟨?_, ?_, ?_⟩
  · exact getIframeGo_all_fail attemptResult maxAttempts 0 (by omega) hframe
  · exact loginGo_all_fail outcome login_max_retries 1 (by omega) (by decide) hlogin
  · intro f hok
    exact getIframeGo_ok_has_witness attemptResult maxAttempts 0 f hok

/-- Witness for C6 at the source defaults: `max_attempts = 5` for the iframe
helper, every attempt failing, and every login attempt leaving the dashboard
invisible. -/
theorem c6_retry_exhaustion_witness :
    (1 ≤ 5 ∧ (∀ j : Nat, (fun _ : Nat => (none : Option Unit)) j = none) ∧
      (∀ j : Nat, (fun _ : Nat => LoginAttemptOutcome.dashboardNotVisible) j
          ≠ LoginAttemptOutcome.success)) ∧
    get_iframe_content_frame (fun _ : Nat => (none : Option Unit)) 5
        = (Except.error "Could not get content frame from iframe", 5) ∧
    run_user_session_login (fun _ : Nat => LoginAttemptOutcome.dashboardNotVisible)
        = (Except.error "Login failed after 3 attempts", login_max_retries) := by
  have h := c6_retry_exhaustion (fun _ : Nat => (none : Option Unit))
    (fun _ : Nat => LoginAttemptOutcome.dashboardNotVisible) 5
    (by decide) (fun _ => rfl) (fun _ hcon => LoginAttemptOutcome.noConfusion hcon)
  exact ⟨⟨by decide, fun _ => rfl, fun _ hcon => LoginAttemptOutcome.noConfusion hcon⟩,
    h.1, h.2.1⟩

/-! ## Course opening in `run_user_session` (src/main.py lines 2117-2191) -/

/-- One course-open attempt as seen by `run_user_session`: the result of the
gathered `open_course` task together with the single recovery retry that the
handler may perform.  The error payload is the classification of the error
message: `true` when it contains "Target page, context or browser has been
closed" / "context or browser has been closed" (main.py lines 2134, 2155),
`false` otherwise.  Pages are identified by a `Nat` tag. -/
structure CourseOpenAttempt : Type where
  result : Except Bool Nat
  retry : Except Bool Nat

/-- Per-course recovery logic (main.py lines 2131-2150 for course 1, lines
2152-2171 for course 2).  Returns the pair
`(course_page, course_error)` exactly as the Python variables are left:

* a successful initial open sets the page and leaves the error `none`;
* a closed-context error with a recoverable context retries once — on retry
  success the page is set but `course_error` is NOT cleared (the source never
  resets it, see lines 2132 and 2142); on retry failure the error becomes the
  retry error;
* any other error leaves the page `none` and keeps the error. -/
def recoverCourse (contextHasPages : Bool) (a : CourseOpenAttempt) :
    Option Nat × Option Bool :=
  match a.result with
  | Except.ok p => (some p, none)
  | Except.error isClosedCtx =>
    if isClosedCtx then
      if !contextHasPages then
        -- line 2137-2138: context has no pages, cannot recover
        (none, some isClosedCtx)
      else
        match a.retry with
        | Except.ok p => (some p, some isClosedCtx)
        | Except.error e2 => (none, some e2)
    else
      (none, some isClosedCtx)

/-- The decision made after both course-open attempts (main.py lines
2173-2191): raise when both `course_1_error` and `course_2_error` are truthy
(line 2174), otherwise continue with whatever pages were obtained. -/
def handleBothCoursesOpen (contextHasPages : Bool) (a1 a2 : CourseOpenAttempt) :
    Except String (Option Nat × Option Nat) :=
  let r1 := recoverCourse contextHasPages a1
  let r2 := recoverCourse contextHasPages a2
  if r1.2.isSome && r2.2.isSome then
    Except.error "Both courses failed to open"
  else
    Except.ok (r1.1, r2.1)

/-- C8 divergence, evaluated at the failing input: course 1 initially fails
with a closed-context error and its recovery retry SUCCEEDS (page 1 is
obtained — the source logs "Course 1 recovery successful"), while course 2
fails with an ordinary error.  Exactly one of the two targets opened
successfully, yet the handler raises "Both courses failed to open", because a
successful recovery never clears `course_1_error`.  The claim says the
session should continue in degraded mode with the target that succeeded. -/
theorem c8_degraded_mode_code_divergence :
    (recoverCourse true ⟨Except.error true, Except.ok 1⟩).1 = some 1 ∧
    handleBothCoursesOpen true ⟨Except.error true, Except.ok 1⟩
        ⟨Except.error false, Except.ok 2⟩
      = Except.error "Both courses failed to open" ∧
    (handleBothCoursesOpen true ⟨Except.ok 1, Except.ok 1⟩
        ⟨Except.error false, Except.ok 2⟩
      = Except.ok (some 1, none)) ∧
    (handleBothCoursesOpen true ⟨Except.error false, Except.ok 1⟩
        ⟨Except.error false, Except.ok 2⟩
      = Except.error "Both courses failed to open") := by
  refine ⟨rfl, rfl, rfl, rfl⟩

/-! ## Result aggregation in `stress_test` (src/main.py lines 3598-3651) -/

/-- One element of the `results` list produced by
`asyncio.gather(*task_objects, return_exceptions=True)` (main.py line 3601):
either a captured exception, the result dict returned by
`run_session_with_context` (carrying its `success` flag), or some other
value. -/
inductive SessionResult : Type
  | exception (msg : String)
  | dict (sessionId : String) (success : Bool)
  | other
deriving DecidableEq

/-- Shallow embedding of `asyncio.gather` over already-finished task outcomes.
With `return_exceptions=True` (the argument passed at main.py line 3601)
every outcome — exceptions included — is returned in the result list and the
gather itself never raises; with `return_exceptions=False` the first
exception would propagate and abort the caller. -/
def gatherSessions (returnExceptions : Bool) (outcomes : List SessionResult) :
    Except String (List SessionResult) :=
  if returnExceptions then
    Except.ok outcomes
  else
    match outcomes.find? (fun r => match r with
      | SessionResult.exception _ => true
      | _ => false) with
    | some (SessionResult.exception m) => Except.error m
    | _ => Except.ok outcomes

/-- Per-session classification used by the tally loop (main.py lines
3639-3651): an exception or a dict with `success = False` counts as failed;
a dict with `success = True` or any non-dict non-exception value counts as
successful. -/
def classifySession (r : SessionResult) : Bool :=
  match r with
  | SessionResult.exception _ => false
  | SessionResult.dict _ success => success
  | SessionResult.other => true

/-- The `(successful_sessions, failed_sessions)` tally of the summary
(main.py lines 3636-3651). -/
def tallyResults (results : List SessionResult) : Nat × Nat :=
  results.foldl
    (fun acc r => if classifySession r then (acc.1 + 1, acc.2) else (acc.1, acc.2 + 1))
    (0, 0)

/-- The tally counts every session exactly once, from any starting
accumulator. -/
theorem tally_foldl_total (results : List SessionResult) (a b : Nat) :
    (results.foldl
      (fun acc r => if classifySession r then (acc.1 + 1, acc.2) else (acc.1, acc.2 + 1))
      (a, b)).1
      + (results.foldl
          (fun acc r => if classifySession r then (acc.1 + 1, acc.2) else (acc.1, acc.2 + 1))
          (a, b)).2
      = a + b + results.length := by
  induction results generalizing a b with
  | nil => simp
  | cons r rest ih =>
    simp only [List.foldl_cons, List.length_cons]
    by_cases hc : classifySession r
    · rw [if_pos hc, ih (a + 1) b]
      omega
    · rw [if_neg hc, ih a (b + 1)]
      omega

/-- C7: a session-fatal failure in one session never changes the recorded
outcome of any other session and never aborts the run.  Injecting a failure
(an exception captured as a result) at index `k` of the gathered outcomes:
the gather with `return_exceptions=True` still returns one entry per session
(it never raises), the final tally still counts every session, every other
session's entry — and hence its success/failure classification — is
unchanged, and the injected entry itself is counted as failed. -/
theorem c7_session_failure_isolation (outcomes : List SessionResult)
    (k : Nat) (msg : String) :
    gatherSessions true (outcomes.set k (SessionResult.exception msg))
        = Except.ok (outcomes.set k (SessionResult.exception msg)) ∧
    (tallyResults (outcomes.set k (SessionResult.exception msg))).1
        + (tallyResults (outcomes.set k (SessionResult.exception msg))).2
        = outcomes.length ∧
    (∀ j (hj : j < outcomes.length), j ≠ k →
        (outcomes.set k (SessionResult.exception msg)).get
            ⟨j, by simpa using hj⟩
          = outcomes.get ⟨j, hj⟩) ∧
    classifySession (SessionResult.exception msg) = false := by
  refine ⟨rfl, ?_, ?_, rfl⟩
  · have h := tally_foldl_total (outcomes.set k (SessionResult.exception msg)) 0 0
    simpa [tallyResults] using h
  · intro j hj hjk
    simp only [List.get_eq_getElem]
    exact List.getElem_set_ne (fun hco => hjk hco.symm) _

/-- Witness for C7 on a concrete run: three sessions, failure injected into
the middle one; the other two sessions' entries are untouched and the run
still tallies all three. -/
theorem c7_session_failure_isolation_witness :
    gatherSessions true
        ([SessionResult.dict "User1_Session1_a" true,
          SessionResult.dict "User1_Session2_a" true,
          SessionResult.other].set 1 (SessionResult.exception "boom"))
      = Except.ok
          [SessionResult.dict "User1_Session1_a" true,
           SessionResult.exception "boom", SessionResult.other] ∧
    (tallyResults
        ([SessionResult.dict "User1_Session1_a" true,
          SessionResult.dict "User1_Session2_a" true,
          SessionResult.other].set 1 (SessionResult.exception "boom"))).1
        + (tallyResults
            ([SessionResult.dict "User1_Session1_a" true,
              SessionResult.dict "User1_Session2_a" true,
              SessionResult.other].set 1 (SessionResult.exception "boom"))).2
        = 3 := by
  have h := c7_session_failure_isolation
    [SessionResult.dict "User1_Session1_a" true,
     SessionResult.dict "User1_Session2_a" true, SessionResult.other] 1 "boom"
  exact ⟨h.1, h.2.1⟩

end Main

/-! ## ConfigOptimizer (src/utils/config_optimizer.py) -/

namespace ConfigOptimizer

/-- The slice of the shared global `STRESS_TEST_CONFIG` dict written by the
optimizer (config_optimizer.py lines 90-94). -/
structure StressTestConfigState : Type where
  sessions_per_user : Nat
  max_concurrent_contexts : Nat
  calculation_method : String
deriving DecidableEq

/-- The `optimal` value computed by `optimize_config` before overrides. -/
structure OptimalValues : Type where
  sessions_per_user : Nat
  max_concurrent_contexts : Nat
  calculation_method : String

/-- The override step of `optimize_config` (config_optimizer.py lines 43-50):
each provided override replaces the dynamically calculated value. -/
def optimize_config_overrides (overrideSpu overrideMaxContexts : Option Nat)
    (calculated : OptimalValues) : OptimalValues :=
  { sessions_per_user := overrideSpu.getD calculated.sessions_per_user
    max_concurrent_contexts := overrideMaxContexts.getD calculated.max_concurrent_contexts
    calculation_method := calculated.calculation_method }

/-- Shallow embedding of `update_stress_test_config` (config_optimizer.py
lines 72-96): it writes `sessions_per_user`, `max_concurrent_contexts` and
`_calculation_method` into the shared global `STRESS_TEST_CONFIG`.  The
global is modelled as explicit state: the function maps the global's value
before the call to its value after the call. -/
def update_stress_test_config (optimal : OptimalValues)
    (g : StressTestConfigState) : StressTestConfigState :=
  { g with
    sessions_per_user := optimal.sessions_per_user
    max_concurrent_contexts := optimal.max_concurrent_contexts
    calculation_method := optimal.calculation_method }

/-- C9 counterexample: applying an override does NOT leave the existing
configuration object unchanged — `update_stress_test_config` writes into the
shared global in place.  With the global initially
`{sessions_per_user := 10, max_concurrent_contexts := 100, "static"}` and
computed optimal values `{3, 30, "dynamic"}`, the global after the call
differs from the global before it, refuting "after the run starts it is
never mutated in place". -/
theorem c9_immutable_snapshot_counterexample :
    update_stress_test_config
        ⟨3, 30, "dynamic"⟩
        ⟨10, 100, "static"⟩
      ≠ (⟨10, 100, "static"⟩ : StressTestConfigState) := by
  decide

/-- C9 amended: `update_stress_test_config` mutates the shared global
configuration in place — after the call (which `stress_test` makes at run
start, main.py lines 3292-3299) every field the optimizer owns carries the
computed/overridden value, and subsequent reads of the global (e.g.
`STRESS_TEST_CONFIG.get('sessions_per_user')` at main.py line 3308) observe
those values rather than the originals.  Overrides flow through
`optimize_config_overrides` into the same global. -/
theorem c9_config_overrides_mutate_in_place (overrideSpu overrideMaxContexts : Option Nat)
    (calculated : OptimalValues) (g : StressTestConfigState) :
    (update_stress_test_config
        (optimize_config_overrides overrideSpu overrideMaxContexts calculated) g).sessions_per_user
        = overrideSpu.getD calculated.sessions_per_user ∧
    (update_stress_test_config
        (optimize_config_overrides overrideSpu overrideMaxContexts calculated) g).max_concurrent_contexts
        = overrideMaxContexts.getD calculated.max_concurrent_contexts ∧
    (update_stress_test_config
        (optimize_config_overrides overrideSpu overrideMaxContexts calculated) g).calculation_method
        = calculated.calculation_method := by
  exact ⟨rfl, rfl, rfl⟩

end ConfigOptimizer

/-! ## Semaphore discipline of `run_session_with_context`
(src/main.py lines 2469-2937)

The function's admission logic is a `try/except/else` statement: the `try`
body (lines 2493-2499) parses the `"User{index}_..."` prefix of
`session_id` with `int(...)`; the `except (ValueError, AttributeError,
IndexError)` handler (lines 2500-2528) contains — after `pass` — the
`await semaphore.acquire()` block and sets `semaphore_acquired = True`; the
`else` arm of the `try` (lines 2529-2537), which runs when parsing does NOT
raise, sets `semaphore_acquired = False`.  So the semaphore is acquired
exactly when the session-id parse raises.  The later sites touching the
semaphore are:

* line 2578-2580: browser not connected — `release()` without clearing the
  flag, then return;
* line 2643-2645: context created — `release()` and the flag is cleared;
* line 2696-2697: context creation raised — `release()` without clearing
  the flag, then return;
* line 2712-2713: context is `None` — `release()` guarded by the flag
  (dead after line 2645 cleared it);
* line 2934-2937: `finally` — `release()` when the flag is still set.
-/

namespace Main

/-- A semaphore operation performed by one session task. -/
inductive SemOp : Type
  | acquire
  | release
deriving DecidableEq

/-- Outcome of `context = await browser.new_context()` (main.py line 2615). -/
inductive CreationOutcome : Type
  | raised
  | returnedNone
  | created
deriving DecidableEq

/-- The branch conditions that determine one execution path of
`run_session_with_context` when a semaphore object is supplied (as
`stress_test` always does, main.py lines 3475 and 3533). -/
structure SessionPath : Type where
  /-- whether parsing the `"User{i}_"` prefix of `session_id` raised
  (main.py lines 2493-2501); `false` for every id of the shape
  `"User<digits>_Session<digits>_<name>"` that `stress_test` generates
  (line 3418) -/
  parseFails : Bool
  /-- whether `browser.is_connected()` eventually returned `True`
  (lines 2544-2557) -/
  browserConnected : Bool
  /-- outcome of `browser.new_context()` (line 2615) -/
  creation : CreationOutcome
  /-- whether the post-creation browser check passed (lines 2719-2732) -/
  browserConnectedAfter : Bool
  /-- whether `run_user_session` raised (line 2773 / 2794) -/
  sessionRaises : Bool

/-- The ordered sequence of semaphore operations performed by one
`run_session_with_context` task along the path `p`, read off the source as
described above.  Only the admission block (inside the parse-failure
handler), the three early-error release sites, the post-creation release and
the `finally` release touch the semaphore; the later branch conditions
(`browserConnectedAfter`, `sessionRaises`) select among paths that perform
no further semaphore operations. -/
def semTrace (p : SessionPath) : List SemOp :=
  -- lines 2493-2537: acquire exactly when the session-id parse raised
  let acq := p.parseFails
  let pre := if acq then [SemOp.acquire] else []
  if !p.browserConnected then
    -- lines 2578-2580 release without clearing the flag; the finally at
    -- lines 2934-2937 then releases again
    pre ++ (if acq then [SemOp.release] else []) ++ (if acq then [SemOp.release] else [])
  else
    match p.creation with
    | CreationOutcome.raised =>
      -- lines 2696-2697 release without clearing the flag; finally releases again
      pre ++ (if acq then [SemOp.release] else []) ++ (if acq then [SemOp.release] else [])
    | CreationOutcome.returnedNone =>
      -- lines 2643-2645 ran (creation returned), releasing and clearing the
      -- flag; the guarded releases at 2712-2713 and 2934-2937 are skipped
      pre ++ (if acq then [SemOp.release] else [])
    | CreationOutcome.created =>
      -- lines 2643-2645 release and clear the flag; nothing after touches it
      pre ++ (if acq then [SemOp.release] else [])

/-- Number of `acquire` operations in a trace. -/
def acquireCount (t : List SemOp) : Nat := t.count SemOp.acquire

/-- Number of `release` operations in a trace. -/
def releaseCount (t : List SemOp) : Nat := t.count SemOp.release

/-- C4 divergence, evaluated at the failing input: on the normal path — a
well-formed session id (`parseFails = false`), connected browser, successful
context creation — the session performs NO semaphore operation at all: the
admission gate is never acquired before context creation, because the
acquire block sits inside the `except` handler of the session-id parse.
The gate IS acquired (then released after creation) precisely on the paths
whose session-id parse raises. -/
theorem c4_gate_not_acquired_on_normal_path :
    semTrace ⟨false, true, CreationOutcome.created, true, false⟩ = [] ∧
    semTrace ⟨true, true, CreationOutcome.created, true, false⟩
      = [SemOp.acquire, SemOp.release] := by
  exact ⟨rfl, rfl⟩

/-- C10 divergence, evaluated at the failing input: on the path that does
acquire the permit (session-id parse raises) and then finds the browser
disconnected, the early return at main.py line 2580 releases the permit
without clearing `semaphore_acquired`, and the `finally` block at lines
2934-2937 releases it a second time: one acquire, two releases.  The same
double release happens when context creation raises.  The balanced paths are
the ones where creation returned (flag cleared at line 2645). -/
theorem c10_semaphore_double_release :
    semTrace ⟨true, false, CreationOutcome.created, true, false⟩
      = [SemOp.acquire, SemOp.release, SemOp.release] ∧
    acquireCount (semTrace ⟨true, false, CreationOutcome.created, true, false⟩) = 1 ∧
    releaseCount (semTrace ⟨true, false, CreationOutcome.created, true, false⟩) = 2 ∧
    releaseCount (semTrace ⟨true, true, CreationOutcome.raised, true, false⟩) = 2 := by
  refine ⟨rfl, ?_, ?_, ?_⟩ <;> decide

/-! ## Concurrent admission model for `stress_test` sessions

`stress_test` creates one `run_session_with_context` task per session and an
`asyncio.Semaphore` with `max(max_concurrent_contexts,
total_concurrent_sessions)` permits (main.py lines 3321-3325).  The model
below interleaves the session tasks; the only shared state is the permit
count.  Each session's admission behaviour follows lines 2493-2537 as
described above: the permit is acquired exactly when the session-id parse
raises, and a held permit is returned when the setup burst ends (line 2643
on success, lines 2696/2935 on failure). -/

/-- Phase of one session task relative to the setup burst.  `settingUp b` is
the task executing `browser.new_context()` (main.py line 2615), with `b`
recording whether it holds a semaphore permit. -/
inductive SessPhase : Type
  | pending
  | settingUp (holdsPermit : Bool)
  | finished
deriving DecidableEq

/-- Global state of a run: one phase per session plus the semaphore's free
permit count. -/
structure RunState : Type where
  phases : List SessPhase
  permits : Nat
deriving DecidableEq

/-- Semaphore sizing at main.py line 3324:
`semaphore_limit = max(max_contexts, total_concurrent_sessions)`. -/
def semaphoreLimit (maxContexts totalSessions : Nat) : Nat :=
  max maxContexts totalSessions

/-- Initial run state: every session pending, all permits free. -/
def initRunState (maxContexts totalSessions : Nat) : RunState :=
  ⟨List.replicate totalSessions SessPhase.pending,
   semaphoreLimit maxContexts totalSessions⟩

/-- Interleaved step relation of the session tasks.  `parseFails i` says
whether session `i`'s id fails the `int(...)` parse at main.py lines
2493-2499 (ids generated by `stress_test` at line 3418 never do).
`enterSetup` is the admission block followed by entry into
`browser.new_context()`: it takes a permit only when the parse raised, and
can proceed without any permit otherwise.  `finishSetup` is the end of the
setup burst, returning the permit when one was held. -/
inductive AdmissionStep (parseFails : List Bool) : RunState → RunState → Prop
  | enterSetup (i : Nat) (s : RunState) (hi : i < s.phases.length)
      (hpend : s.phases.get ⟨i, hi⟩ = SessPhase.pending)
      (hperm : parseFails.getD i false = true → 0 < s.permits) :
      AdmissionStep parseFails s
        ⟨s.phases.set i (SessPhase.settingUp (parseFails.getD i false)),
         if parseFails.getD i false then s.permits - 1 else s.permits⟩
  | finishSetup (i : Nat) (s : RunState) (hi : i < s.phases.length) (b : Bool)
      (hsetup : s.phases.get ⟨i, hi⟩ = SessPhase.settingUp b) :
      AdmissionStep parseFails s
        ⟨s.phases.set i SessPhase.finished,
         if b then s.permits + 1 else s.permits⟩

/-- Whether a session is in the setup burst. -/
def isSettingUp : SessPhase → Bool
  | SessPhase.settingUp _ => true
  | _ => false

/-- Number of sessions simultaneously inside `browser.new_context()`. -/
def countSettingUp (s : RunState) : Nat :=
  (s.phases.filter isSettingUp).length

/-- Whether a session currently holds a semaphore permit. -/
def holdsPermit : SessPhase → Bool
  | SessPhase.settingUp b => b
  | _ => false

/-- Number of sessions simultaneously holding a setup admission permit. -/
def activeAdmissions (s : RunState) : Nat :=
  (s.phases.filter holdsPermit).length

/-- C1 divergence, evaluated at the failing input: a run of 2 sessions with
`max_concurrent_contexts = 1`.

First conjunct: with the well-formed session ids `stress_test` generates
(`parseFails = [false, false]`), the state in which BOTH sessions are inside
`browser.new_context()` at the same time is reachable — no permit is ever
taken, so `countSettingUp = 2 > 1 = maxConcurrentContexts`.

Second conjunct: even on the paths that do acquire
(`parseFails = [true, true]`), the semaphore holds
`semaphoreLimit 1 2 = max(1, 2) = 2` permits, so both sessions can
simultaneously hold a permit during setup: `activeAdmissions = 2 > 1`. -/
theorem c1_admission_bound_violated :
    (Relation.ReflTransGen (AdmissionStep [false, false]) (initRunState 1 2)
        ⟨[SessPhase.settingUp false, SessPhase.settingUp false], 2⟩ ∧
      countSettingUp ⟨[SessPhase.settingUp false, SessPhase.settingUp false], 2⟩ = 2 ∧
      ¬ countSettingUp ⟨[SessPhase.settingUp false, SessPhase.settingUp false], 2⟩ ≤ 1) ∧
    (Relation.ReflTransGen (AdmissionStep [true, true]) (initRunState 1 2)
        ⟨[SessPhase.settingUp true, SessPhase.settingUp true], 0⟩ ∧
      activeAdmissions ⟨[SessPhase.settingUp true, SessPhase.settingUp true], 0⟩ = 2 ∧
      ¬ activeAdmissions ⟨[SessPhase.settingUp true, SessPhase.settingUp true], 0⟩ ≤ 1) := by
  constructor
  · refine ⟨?_, by decide, by decide⟩
    have step1 : AdmissionStep [false, false] (initRunState 1 2)
        ⟨[SessPhase.settingUp false, SessPhase.pending], 2⟩ :=
      AdmissionStep.enterSetup 0 (initRunState 1 2) (by decide) rfl
        (fun hco => absurd hco (by decide))
    have step2 : AdmissionStep [false, false]
        ⟨[SessPhase.settingUp false, SessPhase.pending], 2⟩
        ⟨[SessPhase.settingUp false, SessPhase.settingUp false], 2⟩ :=
      AdmissionStep.enterSetup 1
        ⟨[SessPhase.settingUp false, SessPhase.pending], 2⟩ (by decide) rfl
        (fun hco => absurd hco (by decide))
    exact Relation.ReflTransGen.tail (Relation.ReflTransGen.tail
      Relation.ReflTransGen.refl step1) step2
  · refine ⟨?_, by decide, by decide⟩
    have step1 : AdmissionStep [true, true] (initRunState 1 2)
        ⟨[SessPhase.settingUp true, SessPhase.pending], 1⟩ :=
      AdmissionStep.enterSetup 0 (initRunState 1 2) (by decide) rfl
        (fun _ => by decide)
    have step2 : AdmissionStep [true, true]
        ⟨[SessPhase.settingUp true, SessPhase.pending], 1⟩
        ⟨[SessPhase.settingUp true, SessPhase.settingUp true], 0⟩ :=
      AdmissionStep.enterSetup 1
        ⟨[SessPhase.settingUp true, SessPhase.pending], 1⟩ (by decide) rfl
        (fun _ => by decide)
    exact Relation.ReflTransGen.tail (Relation.ReflTransGen.tail
      Relation.ReflTransGen.refl step1) step2

/-! ## Continuous question pipeline (src/main.py lines 1436-1508)

In continuous mode with concurrent questions, `interact_with_chatbot`
launches `num_workers = min(len(questions_to_use), 10)` copies of
`process_question_pipeline` (lines 1490-1498).  Each worker loops: while the
shared `should_continue` flag holds, it enters the `counter_lock` critical
section, where it first checks the iteration budget
(`continuous_iterations * len(question_pool)` claimed units, line 1453) —
setting `should_continue = False` and breaking when the budget is reached —
and otherwise claims a unit (incrementing `question_counter` and
`total_questions_processed` and shuffling the pool on wraparound), then
executes the claimed unit outside the lock (exceptions are caught and
recorded, lines 1470-1488).  The model below makes the whole critical
section one atomic step, mirroring the lock. -/

/-- Status of one pipeline worker coroutine. -/
inductive WorkerStatus : Type
  | idle
  | working
  | stopped
deriving DecidableEq

/-- Shared pipeline state: `counter` is `question_counter`, `total` is
`total_questions_processed`, `shouldContinue` is `should_continue`, plus the
status of each worker. -/
structure PipeState : Type where
  counter : Nat
  total : Nat
  shouldContinue : Bool
  workers : List WorkerStatus
deriving DecidableEq

/-- Python truthiness of `continuous_iterations` in
`if continuous_iterations and ...` (main.py line 1453): `None` and `0` are
falsy. -/
def limitActive (iterations : Option Nat) : Bool :=
  match iterations with
  | none => false
  | some n => decide (n ≠ 0)

/-- The unit budget `continuous_iterations * len(question_pool)`
(main.py line 1453). -/
def unitBudget (iterations : Option Nat) (poolSize : Nat) : Nat :=
  iterations.getD 0 * poolSize

/-- Worker-pool size `num_workers = min(len(questions_to_use), 10)`
(main.py line 1492). -/
def num_workers (poolSize : Nat) : Nat :=
  min poolSize 10

/-- Initial pipeline state (main.py lines 1442-1446): counters at zero,
`should_continue = True`, all workers about to test the loop condition. -/
def pipeInit (w : Nat) : PipeState :=
  ⟨0, 0, true, List.replicate w WorkerStatus.idle⟩

/-- Interleaved step relation of the pipeline workers.

* `claim`: an idle worker passes the `while should_continue` test, enters the
  lock, finds the budget not yet exhausted, and claims a unit (lines
  1449-1467); it leaves the lock executing the unit.
* `stopAtBudget`: an idle worker passes the loop test, enters the lock, finds
  the budget exhausted, sets `should_continue = False` and breaks (lines
  1453-1455).
* `exitLoop`: an idle worker finds `should_continue` already `False` at the
  loop test and exits (line 1449).
* `finishUnit`: a working worker finishes its unit — successfully or with a
  caught exception, either way one metric is recorded (lines 1470-1488) —
  and returns to the loop test. -/
inductive PipeStep (iterations : Option Nat) (poolSize : Nat) :
    PipeState → PipeState → Prop
  | claim (i : Nat) (s : PipeState) (hi : i < s.workers.length)
      (hidle : s.workers.get ⟨i, hi⟩ = WorkerStatus.idle)
      (hrun : s.shouldContinue = true)
      (hbudget : ¬ (limitActive iterations = true ∧
        unitBudget iterations poolSize ≤ s.total)) :
      PipeStep iterations poolSize s
        ⟨s.counter + 1, s.total + 1, true, s.workers.set i WorkerStatus.working⟩
  | stopAtBudget (i : Nat) (s : PipeState) (hi : i < s.workers.length)
      (hidle : s.workers.get ⟨i, hi⟩ = WorkerStatus.idle)
      (hrun : s.shouldContinue = true)
      (hlim : limitActive iterations = true)
      (hfull : unitBudget iterations poolSize ≤ s.total) :
      PipeStep iterations poolSize s
        ⟨s.counter, s.total, false, s.workers.set i WorkerStatus.stopped⟩
  | exitLoop (i : Nat) (s : PipeState) (hi : i < s.workers.length)
      (hidle : s.workers.get ⟨i, hi⟩ = WorkerStatus.idle)
      (hstop : s.shouldContinue = false) :
      PipeStep iterations poolSize s
        ⟨s.counter, s.total, false, s.workers.set i WorkerStatus.stopped⟩
  | finishUnit (i : Nat) (s : PipeState) (hi : i < s.workers.length)
      (hwork : s.workers.get ⟨i, hi⟩ = WorkerStatus.working) :
      PipeStep iterations poolSize s
        ⟨s.counter, s.total, s.shouldContinue, s.workers.set i WorkerStatus.idle⟩

/-- Inductive invariant of the pipeline: the worker pool keeps its size; the
claimed-unit count never exceeds the budget while the limit is active; a
cleared `should_continue` certifies the budget was reached; and no worker
has exited while `should_continue` still holds. -/
def pipeInv (iterations : Option Nat) (poolSize w : Nat) (s : PipeState) : Prop :=
  s.workers.length = w ∧
  (limitActive iterations = true → s.total ≤ unitBudget iterations poolSize) ∧
  (s.shouldContinue = false → unitBudget iterations poolSize ≤ s.total) ∧
  (s.shouldContinue = true → WorkerStatus.stopped ∉ s.workers)

/-- The invariant holds initially. -/
theorem pipeInv_init (iterations : Option Nat) (poolSize w : Nat) :
    pipeInv iterations poolSize w (pipeInit w) := by
  refine ⟨by simp [pipeInit], ?_, ?_, ?_⟩
  · intro _
    exact Nat.zero_le _
  · intro hco
    exact absurd hco (by simp [pipeInit])
  · intro _ hmem
    have := List.eq_of_mem_replicate hmem
    exact absurd this (by decide)

/-- The invariant is preserved by every pipeline step. -/
theorem pipeInv_step (iterations : Option Nat) (poolSize w : Nat)
    (s t : PipeState) (hinv : pipeInv iterations poolSize w s)
    (hstep : PipeStep iterations poolSize s t) :
    pipeInv iterations poolSize w t := by
  obtain ⟨hlen, hbound, hcleared, hnostop⟩ := hinv
  cases hstep with
  | claim i s hi hidle hrun hbudget =>
    refine ⟨by simpa using hlen, ?_, ?_, ?_⟩
    · intro hlim
      have hlt : s.total < unitBudget iterations poolSize := by
        by_contra hge
        push_neg at hge
        exact hbudget ⟨hlim, hge⟩
      exact hlt
    · intro hco
      exact absurd hco (by simp)
    · intro _ hmem
      rcases List.mem_or_eq_of_mem_set hmem with hmem2 | heq
      · exact absurd hmem2 (hnostop hrun)
      · exact absurd heq (by decide)
  | stopAtBudget i s hi hidle hrun hlim hfull =>
    refine ⟨by simpa using hlen, fun hl => hbound hl, fun _ => hfull, ?_⟩
    · intro hco
      exact absurd hco (by simp)
  | exitLoop i s hi hidle hstop =>
    refine ⟨by simpa using hlen, fun hl => hbound hl, fun _ => hcleared hstop, ?_⟩
    · intro hco
      exact absurd hco (by simp)
  | finishUnit i s hi hwork =>
    refine ⟨by simpa using hlen, fun hl => hbound hl, fun hf => hcleared hf, ?_⟩
    · intro hsc hmem
      rcases List.mem_or_eq_of_mem_set hmem with hmem2 | heq
      · exact absurd hmem2 (hnostop hsc)
      · exact absurd heq (by decide)

/-- The invariant holds in every reachable pipeline state. -/
theorem pipeInv_reachable (iterations : Option Nat) (poolSize w : Nat)
    (s : PipeState)
    (hreach : Relation.ReflTransGen (PipeStep iterations poolSize) (pipeInit w) s) :
    pipeInv iterations poolSize w s := by
  induction hreach with
  | refl => exact pipeInv_init iterations poolSize w
  | tail hsteps hstep ih => exact pipeInv_step iterations poolSize w _ _ ih hstep

/-- C2: in continuous mode with concurrent questions, with
`continuousIterations = N ≥ 1` and pool size `P ≥ 1`, every terminal state of
the pipeline (all `min(P, 10)` workers exited) has processed at least `N×P`
and at most `N×P + W − 1` units (in fact exactly `N×P`: the budget check at
claim time, inside the same critical section as the cursor increment and the
wraparound shuffle, never lets a claim exceed the budget), and once the
budget is reached no step claims new work. -/
theorem c2_continuous_pipeline_budget (N P : Nat) (hN : 1 ≤ N) (hP : 1 ≤ P)
    (s : PipeState)
    (hreach : Relation.ReflTransGen (PipeStep (some N) P)
      (pipeInit (num_workers P)) s)
    (hterm : ∀ wkr ∈ s.workers, wkr = WorkerStatus.stopped) :
    N * P ≤ s.total ∧ s.total ≤ N * P + num_workers P - 1 ∧
    (∀ t u : PipeState, N * P ≤ t.total → PipeStep (some N) P t u →
      u.total = t.total) := by
  obtain ⟨hlen, hbound, hcleared, hnostop⟩ :=
    pipeInv_reachable (some N) P (num_workers P) s hreach
  have hlim : limitActive (some N) = true := by
    simp only [limitActive, decide_eq_true_eq]
    omega
  have hbud : unitBudget (some N) P = N * P := rfl
  have hw : 1 ≤ num_workers P := by
    simp only [num_workers]
    omega
  have hnil : s.workers ≠ [] := by
    intro hnl
    rw [hnl] at hlen
    simp at hlen
    omega
  obtain ⟨x, hx⟩ := List.exists_mem_of_ne_nil s.workers hnil
  have hxstop : x = WorkerStatus.stopped := hterm x hx
  have hsc : s.shouldContinue = false := by
    cases hcase : s.shouldContinue with
    | false => rfl
    | true => exact absurd (hxstop ▸ hx) (hnostop hcase)
  have hge : N * P ≤ s.total := by
    rw [← hbud]
    exact hcleared hsc
  have hle : s.total ≤ N * P := by
    rw [← hbud]
    exact hbound hlim
  refine ⟨hge, by omega, ?_⟩
  intro t u hfull hstep
  cases hstep with
  | claim i t hi hidle hrun hbudget =>
    exact absurd ⟨hlim, by rw [hbud]; exact hfull⟩ hbudget
  | stopAtBudget i t hi hidle hrun hlim2 hfull2 => rfl
  | exitLoop i t hi hidle hstop => rfl
  | finishUnit i t hi hwork => rfl

/-- Witness for C2: `continuousIterations = 1`, pool size 1 (one worker);
the trace claim → finish → stop reaches the terminal state with exactly
`1 × 1 = 1` unit processed, within the claimed bounds. -/
theorem c2_continuous_pipeline_budget_witness :
    1 * 1 ≤ (⟨1, 1, false, [WorkerStatus.stopped]⟩ : PipeState).total ∧
    (⟨1, 1, false, [WorkerStatus.stopped]⟩ : PipeState).total
      ≤ 1 * 1 + num_workers 1 - 1 := by
  have step1 : PipeStep (some 1) 1 (pipeInit (num_workers 1))
      ⟨1, 1, true, [WorkerStatus.working]⟩ :=
    PipeStep.claim 0 (pipeInit (num_workers 1)) (by decide) rfl rfl (by decide)
  have step2 : PipeStep (some 1) 1 (⟨1, 1, true, [WorkerStatus.working]⟩ : PipeState)
      ⟨1, 1, true, [WorkerStatus.idle]⟩ :=
    PipeStep.finishUnit 0 ⟨1, 1, true, [WorkerStatus.working]⟩ (by decide) rfl
  have step3 : PipeStep (some 1) 1 (⟨1, 1, true, [WorkerStatus.idle]⟩ : PipeState)
      ⟨1, 1, false, [WorkerStatus.stopped]⟩ :=
    PipeStep.stopAtBudget 0 ⟨1, 1, true, [WorkerStatus.idle]⟩ (by decide) rfl rfl
      (by decide) (by decide)
  have hreach : Relation.ReflTransGen (PipeStep (some 1) 1) (pipeInit (num_workers 1))
      ⟨1, 1, false, [WorkerStatus.stopped]⟩ :=
    Relation.ReflTransGen.tail (Relation.ReflTransGen.tail
      (Relation.ReflTransGen.tail Relation.ReflTransGen.refl step1) step2) step3
  have h := c2_continuous_pipeline_budget 1 1 (by decide) (by decide)
    ⟨1, 1, false, [WorkerStatus.stopped]⟩ hreach
    (by
      intro wkr hmem
      rw [List.mem_singleton] at hmem
      exact hmem)
  exact ⟨h.1, h.2.1⟩

end Main

end NucPlaywright
